import Mathlib

/-!
Shallow embedding of the cloudflare-dynamic-ip-updater reconciler.

The Rust sources embedded here are src/cloudflare_api.rs (data model),
src/main.rs (the reconciliation loop and the three remote-call helpers)
and src/config.rs (configuration loading and merging).  Remote I/O is
modelled by an oracle value of type `FetchOutcome` describing how each
outbound call resolves (transport failure, body-deserialization failure,
or a successfully parsed value); every function of the program is then a
pure Lean function of its inputs and these oracles.  Log output is
modelled as the list of events the program emits at the configured
`Info` level (`debug!` lines are filtered by the logger initialized in
main.rs and therefore produce no event).
-/

namespace CloudflareDdns

/-- Severity levels of the `log` crate macros used by the program. -/
inductive Severity where
| debug
| info
| warn
| error
deriving DecidableEq, Repr

/-- One emitted log event: severity plus the static part of the format string. -/
structure LogEvent where
  sev : Severity
  msg : String
deriving DecidableEq, Repr

/-- How one outbound HTTP call resolves: the request itself fails in
transport, the response body fails to parse into the expected shape, or a
value of the expected shape is obtained. -/
inductive FetchOutcome (α : Type) where
| transportErr
| deserErr
| ok (v : α)
deriving DecidableEq, Repr

/-- src/cloudflare_api.rs: `Meta`. -/
structure Meta where
  auto_added : Bool
  managed_by_apps : Bool
  managed_by_argo_tunnel : Bool
  source : String
deriving DecidableEq, Repr

/-- src/cloudflare_api.rs: `CloudflareError`. -/
structure CloudflareError where
  code : Int
  message : String
deriving DecidableEq, Repr

/-- src/cloudflare_api.rs: `CloudflareDnsRecord`, the update payload. -/
structure CloudflareDnsRecord where
  dns_type : String
  name : String
  content : String
  ttl : Int
  proxied : Bool
deriving DecidableEq, Repr

/-- src/cloudflare_api.rs: `CloudflareDnsResult`, the record as returned by
the provider. -/
structure CloudflareDnsResult where
  id : String
  zone_id : String
  zone_name : String
  name : String
  dns_type : String
  content : String
  proxiable : Bool
  proxied : Bool
  ttl : Int
  locked : Bool
  meta : Meta
  created_on : String
  modified_on : String
deriving DecidableEq, Repr

/-- src/cloudflare_api.rs: `CloudflareResponse<T>`, the provider response
envelope. -/
structure CloudflareResponse (T : Type) where
  result : T
  success : Bool
  errors : List CloudflareError
  messages : List String
deriving DecidableEq, Repr

/-- The set of characters Rust `char::is_whitespace` accepts (the Unicode
White_Space property), used by `str::trim`. -/
def rust_char_is_whitespace (c : Char) : Bool :=
  let n := c.toNat
  n = 0x09 || n = 0x0A || n = 0x0B || n = 0x0C || n = 0x0D || n = 0x20 ||
  n = 0x85 || n = 0xA0 || n = 0x1680 || (0x2000 ≤ n && n ≤ 0x200A) ||
  n = 0x2028 || n = 0x2029 || n = 0x202F || n = 0x205F || n = 0x3000

/-- Rust `str::trim`: remove leading and trailing whitespace characters. -/
def rust_trim (s : String) : String :=
  ⟨((s.data.dropWhile rust_char_is_whitespace).reverse.dropWhile
      rust_char_is_whitespace).reverse⟩

/-- src/main.rs lines 101-121: `get_current_public_ip`.  Returns the raw
response body on success; on a transport error logs at warn, on a
body-read error logs at error, returning `none` in both cases. -/
def get_current_public_ip (o : FetchOutcome String) :
    Option String × List LogEvent :=
  match o with
  | .ok v => (some v, [])
  | .deserErr => (none, [⟨.error, "Error deserializing current IP"⟩])
  | .transportErr => (none, [⟨.warn, "Issue trying to get current IP"⟩])

/-- src/main.rs lines 124-145: `get_current_cloudflare_dns_record`.  Any
response that deserializes into the envelope is returned as-is (the
`success` flag is never inspected); transport errors log at warn,
deserialization errors at error. -/
def get_current_cloudflare_dns_record
    (o : FetchOutcome (CloudflareResponse CloudflareDnsResult)) :
    Option (CloudflareResponse CloudflareDnsResult) × List LogEvent :=
  match o with
  | .ok v => (some v, [])
  | .deserErr =>
      (none, [⟨.error, "Error deserializing current Cloudflare DNS entry"⟩])
  | .transportErr => (none, [⟨.warn, "Issue trying to get Cloudflare IP"⟩])

/-- src/main.rs lines 148-178: `update_cloudflare_dns_record`.  A parsed
envelope with `success == false` logs at error and yields `none`; with
`success == true` logs at info and yields the envelope; a transport error
logs at error (note: not warn); a deserialization error logs at error. -/
def update_cloudflare_dns_record
    (o : FetchOutcome (CloudflareResponse CloudflareDnsResult)) :
    Option (CloudflareResponse CloudflareDnsResult) × List LogEvent :=
  match o with
  | .ok v =>
      if v.success = false then
        (none, [⟨.error, "Cloudflare update was not successful"⟩])
      else
        (some v, [⟨.info, "Cloudflare DNS record updated successfully"⟩])
  | .deserErr =>
      (none,
       [⟨.error, "Error deserializing current Cloudflare DNS update response"⟩])
  | .transportErr =>
      (none, [⟨.error, "Cloudflare DNS did not update successfully"⟩])

/-- The oracle for one loop iteration: how each of the three possible
outbound calls of src/main.rs lines 48-96 would resolve this iteration. -/
structure IterEnv where
  recordFetch : FetchOutcome (CloudflareResponse CloudflareDnsResult)
  ipFetch : FetchOutcome String
  updateResp : FetchOutcome (CloudflareResponse CloudflareDnsResult)
deriving Repr

/-- Observable result of one loop iteration: the cache afterwards, the
update payloads issued, how many record-fetch and public-IP requests were
sent, and the log events emitted. -/
structure IterResult where
  newCache : Option (CloudflareResponse CloudflareDnsResult)
  updates : List CloudflareDnsRecord
  recordRequests : Nat
  ipRequests : Nat
  logs : List LogEvent
deriving Repr

/-- src/main.rs lines 46-97: the body of one iteration of the main loop,
acting on the cache `current_cloudflare_dns_record`.  If the cache is
empty the record is fetched; the public IP is then fetched
unconditionally; if either is unavailable the iteration ends; otherwise
the trimmed strings are compared and, when different, a payload copying
type/name/ttl/proxied from the cached record with the raw fetched IP as
content is submitted and the cache replaced by the update call result. -/
def iterate (cache : Option (CloudflareResponse CloudflareDnsResult))
    (env : IterEnv) : IterResult :=
  let fetched :=
    match cache with
    | none =>
        let r := get_current_cloudflare_dns_record env.recordFetch
        (r.1, r.2, 1)
    | some c => (some c, ([] : List LogEvent), 0)
  let cache1 := fetched.1
  let recLogs := fetched.2.1
  let recReqs := fetched.2.2
  let ipr := get_current_public_ip env.ipFetch
  match ipr.1, cache1 with
  | some ipv, some rec =>
      if rust_trim ipv = rust_trim rec.result.content then
        { newCache := some rec, updates := [], recordRequests := recReqs,
          ipRequests := 1, logs := recLogs ++ ipr.2 }
      else
        let new_dns_record : CloudflareDnsRecord :=
          { dns_type := rec.result.dns_type, name := rec.result.name,
            content := ipv, ttl := rec.result.ttl,
            proxied := rec.result.proxied }
        let upd := update_cloudflare_dns_record env.updateResp
        { newCache := upd.1, updates := [new_dns_record],
          recordRequests := recReqs, ipRequests := 1,
          logs := recLogs ++ ipr.2 ++
            [⟨.info, "IP changed. Updating with Cloudflare."⟩] ++ upd.2 }
  | _, _ =>
      { newCache := cache1, updates := [], recordRequests := recReqs,
        ipRequests := 1, logs := recLogs ++ ipr.2 }

/-- Modelled from the spec: src/main.rs declares `mod constants` but
constants.rs is absent from src/; the spec gives `wait_duration` the
default value 300 seconds, which `DEFAULT_WAIT_TIME` must therefore be. -/
def DEFAULT_WAIT_TIME : Nat := 300

/-- Modelled from the spec: constants.rs is absent from src/; the spec
names the required-value placeholder as the sentinel string `not set`. -/
def DEFAULT_NOT_SET : String := "not set"

/-- src/config.rs: `GeneralConfig`. -/
structure GeneralConfig where
  wait_duration : Option Nat
deriving DecidableEq, Repr

/-- src/config.rs: `CloudflareConfig`. -/
structure CloudflareConfig where
  zone_id : Option String
  api_token : Option String
  dns_record_id : Option String
deriving DecidableEq, Repr

/-- src/config.rs: `Config`. -/
structure Config where
  general : Option GeneralConfig
  cloudflare : Option CloudflareConfig
deriving DecidableEq, Repr

/-- The merge crate default strategy for `Option` fields
(`merge::option::overwrite_none`): keep the left value unless it is
absent. -/
def merge_opt {α : Type} (a b : Option α) : Option α :=
  match a with
  | none => b
  | some x => some x

/-- Derived `Merge` for `GeneralConfig`: field-by-field `overwrite_none`. -/
def GeneralConfig.merge (s o : GeneralConfig) : GeneralConfig :=
  ⟨merge_opt s.wait_duration o.wait_duration⟩

/-- Derived `Merge` for `CloudflareConfig`: field-by-field `overwrite_none`. -/
def CloudflareConfig.merge (s o : CloudflareConfig) : CloudflareConfig :=
  ⟨merge_opt s.zone_id o.zone_id, merge_opt s.api_token o.api_token,
   merge_opt s.dns_record_id o.dns_record_id⟩

/-- Derived `Merge` for `Config`: `overwrite_none` on the two section
Options, with no recursion into a present section. -/
def Config.merge (s o : Config) : Config :=
  ⟨merge_opt s.general o.general, merge_opt s.cloudflare o.cloudflare⟩

/-- src/config.rs `Default for GeneralConfig`. -/
def GeneralConfig.default : GeneralConfig := ⟨some DEFAULT_WAIT_TIME⟩

/-- src/config.rs `Default for CloudflareConfig`. -/
def CloudflareConfig.default : CloudflareConfig :=
  ⟨some DEFAULT_NOT_SET, some DEFAULT_NOT_SET, some DEFAULT_NOT_SET⟩

/-- src/config.rs `Default for Config`. -/
def Config.default : Config :=
  ⟨some GeneralConfig.default, some CloudflareConfig.default⟩

/-- src/config.rs lines 131-139: `Config::merge_custom`.  Performs the
derived top-level merge and then additionally merges the fields of the
`cloudflare` child; the `general` child receives no inner merge.  The
Rust `unwrap` calls are modelled by returning `none` where they would
panic. -/
def Config.merge_custom (s o : Config) : Option Config :=
  let s1 := Config.merge s o
  match s1.cloudflare, o.cloudflare with
  | some c, some oc =>
      some { general := s1.general, cloudflare := some (c.merge oc) }
  | _, _ => none

/-- Outcome of `Config::load`: the process exits with a status code, the
configuration is returned and the main loop proceeds, or an `unwrap` /
`expect` panics. -/
inductive LoadOutcome where
| exitProcess (code : Nat)
| loaded (c : Config)
| panicked
deriving DecidableEq, Repr

/-- Whether a startup outcome lets main.rs reach the reconciliation loop:
only a returned configuration does. -/
def runs_reconciliation_loop : LoadOutcome → Bool
  | .loaded _ => true
  | _ => false

/-- src/config.rs lines 56-96: `Config::load`, as a function of whether
the config file exists and of the `Config` the TOML file parses to.  A
missing file writes the defaults, logs at info and exits 0; otherwise the
parsed config is merged with the defaults and, if any cloudflare value
equals the sentinel, a warning is logged and the process exits 0; else
the merged config is returned to main. -/
def Config.load (fileExists : Bool) (parsed : Config) :
    LoadOutcome × List LogEvent :=
  if fileExists = false then
    (.exitProcess 0,
     [⟨.info,
       "Default configuration file created. Please fill it out and restart."⟩])
  else
    match Config.merge_custom parsed Config.default with
    | none => (.panicked, [])
    | some config =>
        match config.cloudflare with
        | none => (.panicked, [])
        | some cf =>
            match cf.api_token, cf.zone_id, cf.dns_record_id with
            | some tok, some zi, some ri =>
                if tok = DEFAULT_NOT_SET ∨ zi = DEFAULT_NOT_SET ∨
                    ri = DEFAULT_NOT_SET then
                  (.exitProcess 0,
                   [⟨.warn,
                     "Please ensure all values are configured in the configuration file and restart."⟩])
                else
                  (.loaded config, [])
            | _, _, _ => (.panicked, [])

/-! Sample concrete values used by witnesses and counterexamples. -/

/-- A sample provider `meta` object. -/
def sampleMeta : Meta :=
  { auto_added := false, managed_by_apps := false,
    managed_by_argo_tunnel := false, source := "primary" }

/-- A sample DNS record with content `1.2.3.4`. -/
def sampleResult : CloudflareDnsResult :=
  { id := "372e67954025e0ba6aaa6d586b9e0b59", zone_id := "zone1",
    zone_name := "example.com", name := "home.example.com",
    dns_type := "A", content := "1.2.3.4", proxiable := true,
    proxied := false, ttl := 1, locked := false, meta := sampleMeta,
    created_on := "2024-01-01T00:00:00Z",
    modified_on := "2024-01-01T00:00:00Z" }

/-- A successful envelope carrying `sampleResult`. -/
def sampleResp : CloudflareResponse CloudflareDnsResult :=
  { result := sampleResult, success := true, errors := [], messages := [] }

/-- An envelope with `success = false` carrying `sampleResult`. -/
def sampleRespFail : CloudflareResponse CloudflareDnsResult :=
  { result := sampleResult, success := false, errors := [⟨1004, "Host not found"⟩],
    messages := [] }

/-- A sample record with content `1.2.3.0`, for format-sensitivity tests. -/
def sampleResult0 : CloudflareDnsResult :=
  { sampleResult with content := "1.2.3.0" }

/-- A successful envelope carrying `sampleResult0`. -/
def sampleResp0 : CloudflareResponse CloudflareDnsResult :=
  { result := sampleResult0, success := true, errors := [], messages := [] }

/-! Claim theorems. -/

/-- C1: in an iteration whose cached record and fetched public IP are both
available and whose trimmed IP differs from the trimmed cached content,
exactly one update request is issued; its content is the new IP and its
type, name, ttl and proxied fields are copied unchanged from the cached
record. -/
theorem update_on_difference
    (rec : CloudflareResponse CloudflareDnsResult) (env : IterEnv)
    (ip : String) (hip : env.ipFetch = .ok ip)
    (hne : rust_trim ip ≠ rust_trim rec.result.content) :
    (iterate (some rec) env).updates =
      [{ dns_type := rec.result.dns_type, name := rec.result.name,
         content := ip, ttl := rec.result.ttl,
         proxied := rec.result.proxied }] := by
  simp only [iterate, hip, get_current_public_ip]
  rw [if_neg hne]

/-- Witness for C1 at the spec example: cached content 1.2.3.4, fetched IP
1.2.3.5 produce one update with content 1.2.3.5 and other fields copied. -/
theorem update_on_difference_witness :
    (iterate (some sampleResp)
        ⟨.ok sampleResp, .ok "1.2.3.5", .transportErr⟩).updates =
      [{ dns_type := sampleResp.result.dns_type,
         name := sampleResp.result.name, content := "1.2.3.5",
         ttl := sampleResp.result.ttl,
         proxied := sampleResp.result.proxied }] :=
  update_on_difference sampleResp ⟨.ok sampleResp, .ok "1.2.3.5", .transportErr⟩
    "1.2.3.5" rfl (by decide)

/-- C2: the update decision is exact string comparison of the trimmed
fetched IP against the trimmed cached content: equal trimmed forms issue
no update and leave the cache unchanged, while trimmed forms that differ
as strings issue exactly one update. -/
theorem compare_trimmed_exact
    (rec : CloudflareResponse CloudflareDnsResult) (env : IterEnv)
    (ip : String) (hip : env.ipFetch = .ok ip) :
    (rust_trim ip = rust_trim rec.result.content →
      (iterate (some rec) env).updates = [] ∧
      (iterate (some rec) env).newCache = some rec) ∧
    (rust_trim ip ≠ rust_trim rec.result.content →
      (iterate (some rec) env).updates.length = 1) := by
  constructor
  · intro heq
    simp only [iterate, hip, get_current_public_ip]
    rw [if_pos heq]
    exact ⟨rfl, rfl⟩
  · intro hne
    simp only [iterate, hip, get_current_public_ip]
    rw [if_neg hne]
    rfl

/-- Witness for C2: fetched IP with a trailing newline compares equal to
the cached 1.2.3.4 (no update, cache unchanged), while 1.2.3.00 against
cached 1.2.3.0 counts as different and triggers one update. -/
theorem compare_trimmed_exact_witness :
    ((iterate (some sampleResp)
        ⟨.transportErr, .ok "1.2.3.4\n", .transportErr⟩).updates = [] ∧
     (iterate (some sampleResp)
        ⟨.transportErr, .ok "1.2.3.4\n", .transportErr⟩).newCache =
       some sampleResp) ∧
    (iterate (some sampleResp0)
        ⟨.transportErr, .ok "1.2.3.00", .transportErr⟩).updates.length = 1 :=
  ⟨(compare_trimmed_exact sampleResp
      ⟨.transportErr, .ok "1.2.3.4\n", .transportErr⟩ "1.2.3.4\n" rfl).1
      (by decide),
   (compare_trimmed_exact sampleResp0
      ⟨.transportErr, .ok "1.2.3.00", .transportErr⟩ "1.2.3.00" rfl).2
      (by decide)⟩

/-- C6: the content field of the update payload is the raw public-IP
response body with no trimming applied; trimming is used only in the
comparison, so surrounding whitespace in the fetched body is sent as part
of content. -/
theorem update_content_is_raw_body
    (rec : CloudflareResponse CloudflareDnsResult) (env : IterEnv)
    (ip : String) (hip : env.ipFetch = .ok ip)
    (hne : rust_trim ip ≠ rust_trim rec.result.content) :
    ((iterate (some rec) env).updates.map
        (fun r => CloudflareDnsRecord.content r)) = [ip] := by
  simp only [iterate, hip, get_current_public_ip]
  rw [if_neg hne]
  rfl

/-- Witness for C6: the body with a trailing newline differs (trimmed)
from the cached content and the payload content keeps the newline. -/
theorem update_content_is_raw_body_witness :
    ((iterate (some sampleResp)
        ⟨.transportErr, .ok "5.6.7.8\n", .transportErr⟩).updates.map
        (fun r => CloudflareDnsRecord.content r)) = ["5.6.7.8\n"] :=
  update_content_is_raw_body sampleResp
    ⟨.transportErr, .ok "5.6.7.8\n", .transportErr⟩ "5.6.7.8\n" rfl
    (by decide)

/-- C3: after an update attempt, a response with success true becomes the
new cache; a response with success false, a transport failure or a
deserialization failure leaves the cache empty, and an empty cache makes
the next iteration issue a fresh record fetch. -/
theorem cache_after_update
    (rec : CloudflareResponse CloudflareDnsResult) (env : IterEnv)
    (ip : String) (hip : env.ipFetch = .ok ip)
    (hne : rust_trim ip ≠ rust_trim rec.result.content) :
    (∀ v, env.updateResp = .ok v → v.success = true →
      (iterate (some rec) env).newCache = some v) ∧
    (∀ v, env.updateResp = .ok v → v.success = false →
      (iterate (some rec) env).newCache = none) ∧
    (env.updateResp = .transportErr →
      (iterate (some rec) env).newCache = none) ∧
    (env.updateResp = .deserErr →
      (iterate (some rec) env).newCache = none) ∧
    (∀ env2, (iterate none env2).recordRequests = 1) := by
  refine ⟨?_, ?_, ?_, ?_, ?_⟩
  · intro v hv hs
    simp only [iterate, hip, get_current_public_ip]
    rw [if_neg hne]
    simp [update_cloudflare_dns_record, hv, hs]
  · intro v hv hs
    simp only [iterate, hip, get_current_public_ip]
    rw [if_neg hne]
    simp [update_cloudflare_dns_record, hv, hs]
  · intro hv
    simp only [iterate, hip, get_current_public_ip]
    rw [if_neg hne]
    simp [update_cloudflare_dns_record, hv]
  · intro hv
    simp only [iterate, hip, get_current_public_ip]
    rw [if_neg hne]
    simp [update_cloudflare_dns_record, hv]
  · intro env2
    cases h : env2.recordFetch <;>
      cases h2 : env2.ipFetch <;>
        simp [iterate, get_current_public_ip,
          get_current_cloudflare_dns_record, h, h2] <;>
          split <;> rfl

/-- Witness for C3: a success-false response to the update empties the
cache. -/
theorem cache_after_update_witness :
    (iterate (some sampleResp)
        ⟨.transportErr, .ok "1.2.3.5", .ok sampleRespFail⟩).newCache =
      none :=
  (cache_after_update sampleResp
      ⟨.transportErr, .ok "1.2.3.5", .ok sampleRespFail⟩ "1.2.3.5" rfl
      (by decide)).2.1 sampleRespFail rfl rfl

/-- C4 counterexample: with an empty cache and a failing record fetch the
iteration does not end before the public-IP step; main.rs line 59 issues
the public-IP request unconditionally, so a subsequent step of the
iteration does run, contrary to the claim. -/
theorem cold_start_fetch_fail_counterexample :
    (iterate none ⟨.transportErr, .transportErr, .transportErr⟩).ipRequests
      = 1 ∧
    ¬ (iterate none ⟨.transportErr, .transportErr, .transportErr⟩).ipRequests
      = 0 := by
  constructor
  · rfl
  · intro h
    simp [iterate, get_current_public_ip,
      get_current_cloudflare_dns_record] at h

/-- C4 amended: in an iteration starting with an empty cache whose record
fetch fails, the failure is logged, the comparison and update steps are
skipped (no update is attempted), and the cache stays empty so the fetch
is retried next cycle; the public-IP fetch, however, is still performed
before the iteration is abandoned. -/
theorem cold_start_fetch_fail_skips (env : IterEnv)
    (hrec : env.recordFetch = .transportErr ∨ env.recordFetch = .deserErr) :
    (iterate none env).updates = [] ∧
    (iterate none env).newCache = none ∧
    (iterate none env).ipRequests = 1 ∧
    (∃ e ∈ (iterate none env).logs,
      e.sev = Severity.warn ∨ e.sev = Severity.error) := by
  rcases hrec with h | h <;>
    cases h2 : env.ipFetch <;>
      refine ⟨?_, ?_, ?_, ?_⟩ <;>
        simp [iterate, get_current_public_ip,
          get_current_cloudflare_dns_record, h, h2]

/-- Witness for C4 amended at a concrete environment whose record fetch
fails in transport. -/
theorem cold_start_fetch_fail_skips_witness :
    (iterate none ⟨.transportErr, .ok "1.2.3.5", .transportErr⟩).updates
        = [] ∧
    (iterate none ⟨.transportErr, .ok "1.2.3.5", .transportErr⟩).newCache
        = none ∧
    (iterate none ⟨.transportErr, .ok "1.2.3.5", .transportErr⟩).ipRequests
        = 1 ∧
    (∃ e ∈ (iterate none ⟨.transportErr, .ok "1.2.3.5", .transportErr⟩).logs,
      e.sev = Severity.warn ∨ e.sev = Severity.error) :=
  cold_start_fetch_fail_skips ⟨.transportErr, .ok "1.2.3.5", .transportErr⟩
    (Or.inl rfl)

/-- C5 counterexample: in an iteration that starts with an empty cache, a
successful record fetch followed by a failed public-IP fetch leaves the
cache populated, so the cache is not exactly as it was before the
iteration. -/
theorem ip_fetch_fail_counterexample :
    (iterate none ⟨.ok sampleResp, .transportErr, .transportErr⟩).newCache
      = some sampleResp ∧
    some sampleResp ≠
      (none : Option (CloudflareResponse CloudflareDnsResult)) := by
  constructor
  · rfl
  · intro h
    cases h

/-- C5 amended: when the public-IP fetch returns no value, no update
request is attempted in that iteration and any record cached at the start
of the iteration is left unchanged; an initially empty cache may still be
populated by the record-fetch step of the same iteration. -/
theorem ip_fetch_fail_no_update
    (cache : Option (CloudflareResponse CloudflareDnsResult))
    (env : IterEnv)
    (hip : env.ipFetch = .transportErr ∨ env.ipFetch = .deserErr) :
    (iterate cache env).updates = [] ∧
    (∀ r, cache = some r → (iterate cache env).newCache = some r) := by
  rcases hip with h | h <;>
    constructor <;>
      cases cache <;>
        cases h2 : env.recordFetch <;>
          simp [iterate, get_current_public_ip,
            get_current_cloudflare_dns_record, h, h2]

/-- Witness for C5 amended: a transport failure of the public-IP fetch
with a populated cache issues no update and keeps the cached record. -/
theorem ip_fetch_fail_no_update_witness :
    (iterate (some sampleResp)
        ⟨.transportErr, .transportErr, .transportErr⟩).updates = [] ∧
    (∀ r, (some sampleResp : Option (CloudflareResponse CloudflareDnsResult))
        = some r →
      (iterate (some sampleResp)
          ⟨.transportErr, .transportErr, .transportErr⟩).newCache = some r) :=
  ip_fetch_fail_no_update (some sampleResp)
    ⟨.transportErr, .transportErr, .transportErr⟩ (Or.inl rfl)

/-- C7: the record fetch never inspects the success flag: any envelope
that deserializes is returned and cached even with success false, and its
result fields drive the comparison and the update payload. -/
theorem record_fetch_ignores_success
    (v : CloudflareResponse CloudflareDnsResult) (env : IterEnv)
    (ip : String) (hv : v.success = false)
    (hrec : env.recordFetch = .ok v) (hip : env.ipFetch = .ok ip) :
    (get_current_cloudflare_dns_record (FetchOutcome.ok v)).1 = some v ∧
    (rust_trim ip = rust_trim v.result.content →
      (iterate none env).updates = [] ∧
      (iterate none env).newCache = some v) ∧
    (rust_trim ip ≠ rust_trim v.result.content →
      (iterate none env).updates =
        [{ dns_type := v.result.dns_type, name := v.result.name,
           content := ip, ttl := v.result.ttl,
           proxied := v.result.proxied }]) := by
  refine ⟨rfl, ?_, ?_⟩
  · intro heq
    simp only [iterate, hrec, hip, get_current_public_ip,
      get_current_cloudflare_dns_record]
    rw [if_pos heq]
    exact ⟨rfl, rfl⟩
  · intro hne
    simp only [iterate, hrec, hip, get_current_public_ip,
      get_current_cloudflare_dns_record]
    rw [if_neg hne]

/-- Witness for C7: a success-false envelope is cached by the record fetch
and its content is compared against the fetched IP. -/
theorem record_fetch_ignores_success_witness :
    (get_current_cloudflare_dns_record (FetchOutcome.ok sampleRespFail)).1
      = some sampleRespFail ∧
    (iterate none ⟨.ok sampleRespFail, .ok "1.2.3.4\n", .transportErr⟩).updates
      = [] ∧
    (iterate none ⟨.ok sampleRespFail, .ok "1.2.3.4\n", .transportErr⟩).newCache
      = some sampleRespFail :=
  have h := record_fetch_ignores_success sampleRespFail
    ⟨.ok sampleRespFail, .ok "1.2.3.4\n", .transportErr⟩ "1.2.3.4\n"
    rfl rfl rfl
  ⟨h.1, (h.2.1 (by decide)).1, (h.2.1 (by decide)).2⟩

/-- C8 counterexample: a transport error of the record update is logged at
error severity (main.rs line 174), not at warning as the claim states for
every remote call. -/
theorem update_transport_log_counterexample :
    ((update_cloudflare_dns_record
        (FetchOutcome.transportErr
          (α := CloudflareResponse CloudflareDnsResult))).2.map
        (fun e => LogEvent.sev e)) = [Severity.error] ∧
    ¬ ((update_cloudflare_dns_record
        (FetchOutcome.transportErr
          (α := CloudflareResponse CloudflareDnsResult))).2.map
        (fun e => LogEvent.sev e)) = [Severity.warn] := by
  constructor
  · rfl
  · intro h
    simp [update_cloudflare_dns_record] at h

/-- C8 amended: the public-IP fetch and the record fetch log transport
errors at warning and deserialization errors at error; the record update
logs transport errors, deserialization errors and provider-reported
failure (success false) all at error; in every failure case the call
returns none, so the affected step of the iteration is treated as failed
without an incorrect state change. -/
theorem remote_call_log_severities
    (v : CloudflareResponse CloudflareDnsResult) (hv : v.success = false) :
    get_current_public_ip .transportErr =
      (none, [⟨Severity.warn, "Issue trying to get current IP"⟩]) ∧
    get_current_public_ip .deserErr =
      (none, [⟨Severity.error, "Error deserializing current IP"⟩]) ∧
    get_current_cloudflare_dns_record .transportErr =
      (none, [⟨Severity.warn, "Issue trying to get Cloudflare IP"⟩]) ∧
    get_current_cloudflare_dns_record .deserErr =
      (none,
       [⟨Severity.error, "Error deserializing current Cloudflare DNS entry"⟩]) ∧
    update_cloudflare_dns_record .transportErr =
      (none,
       [⟨Severity.error, "Cloudflare DNS did not update successfully"⟩]) ∧
    update_cloudflare_dns_record .deserErr =
      (none,
       [⟨Severity.error,
         "Error deserializing current Cloudflare DNS update response"⟩]) ∧
    update_cloudflare_dns_record (.ok v) =
      (none, [⟨Severity.error, "Cloudflare update was not successful"⟩]) := by
  refine ⟨rfl, rfl, rfl, rfl, rfl, rfl, ?_⟩
  simp [update_cloudflare_dns_record, hv]

/-- Witness for C8 amended at a concrete success-false envelope. -/
theorem remote_call_log_severities_witness :
    update_cloudflare_dns_record (.ok sampleRespFail) =
      (none, [⟨Severity.error, "Cloudflare update was not successful"⟩]) :=
  (remote_call_log_severities sampleRespFail rfl).2.2.2.2.2.2

/-- The parsed form of a config file whose general section is present but
carries no wait_duration key, and which has no cloudflare section. -/
def configGeneralEmpty : Config :=
  { general := some ⟨none⟩, cloudflare := none }

/-- C9: merge_custom merges the cloudflare child field-by-field but never
the general child, so a config file with a present general section that
omits wait_duration merges to wait_duration none instead of the default
300; main.rs line 28 then panics unwrapping it.  This contradicts the doc
comment of merge_custom (merge for the Config object and its children)
and the fully-populated merge the spec describes. -/
theorem merge_custom_misses_general_child :
    Config.merge_custom configGeneralEmpty Config.default =
      some { general := some ⟨none⟩,
             cloudflare := some CloudflareConfig.default } ∧
    ¬ (Config.merge_custom configGeneralEmpty Config.default).map
        (fun c => Config.general c) =
      some (some ⟨some DEFAULT_WAIT_TIME⟩) := by
  constructor
  · rfl
  · intro h
    simp [Config.merge_custom, Config.merge, configGeneralEmpty,
      Config.default, merge_opt, CloudflareConfig.merge,
      GeneralConfig.default, CloudflareConfig.default] at h

/-- C10: with the config file present, if after the merge any of zone_id,
api_token or dns_record_id equals the sentinel, load logs one warning and
exits with status 0, and the reconciliation loop never runs. -/
theorem load_sentinel_exits (g : Option GeneralConfig)
    (zi tok ri : String)
    (hsent : zi = DEFAULT_NOT_SET ∨ tok = DEFAULT_NOT_SET ∨
      ri = DEFAULT_NOT_SET) :
    Config.load true
        { general := g, cloudflare := some ⟨some zi, some tok, some ri⟩ } =
      (LoadOutcome.exitProcess 0,
       [⟨Severity.warn,
         "Please ensure all values are configured in the configuration file and restart."⟩]) ∧
    runs_reconciliation_loop
      (Config.load true
          { general := g,
            cloudflare := some ⟨some zi, some tok, some ri⟩ }).1 = false := by
  have hcond : tok = DEFAULT_NOT_SET ∨ zi = DEFAULT_NOT_SET ∨
      ri = DEFAULT_NOT_SET := by tauto
  constructor
  · simp only [Config.load, Config.merge_custom, Config.merge,
      Config.default, merge_opt, CloudflareConfig.merge,
      CloudflareConfig.default]
    rw [if_neg (by simp)]
    rw [if_pos hcond]
  · simp only [Config.load, Config.merge_custom, Config.merge,
      Config.default, merge_opt, CloudflareConfig.merge,
      CloudflareConfig.default]
    rw [if_neg (by simp)]
    rw [if_pos hcond]
    rfl

/-- Witness for C10: a file whose zone_id is still the sentinel makes the
process warn and exit 0 without reaching the loop. -/
theorem load_sentinel_exits_witness :
    Config.load true
        { general := none,
          cloudflare := some ⟨some "not set", some "tok123", some "rec456"⟩ } =
      (LoadOutcome.exitProcess 0,
       [⟨Severity.warn,
         "Please ensure all values are configured in the configuration file and restart."⟩]) ∧
    runs_reconciliation_loop
      (Config.load true
          { general := none,
            cloudflare := some ⟨some "not set", some "tok123",
              some "rec456"⟩ }).1 = false :=
  load_sentinel_exits none "not set" "tok123" "rec456" (Or.inl rfl)

end CloudflareDdns
